import Mathlib

/-!
Shallow embedding of `src/app/api/screenshot/route.ts` (saikothasan/site-shot).

The route is a single Next.js `POST` handler that validates a JSON body with a
zod schema (`screenshotSchema`), drives one puppeteer browser session through a
fixed sequence of awaited calls, and returns a JSON response.

Modelling decisions:
* JSON numbers are modelled as `Rat` (JSON literals are decimal; none of the
  route's arithmetic leaves ℚ).
* zod's `z.string().url()` validator is third-party library code; it is kept
  opaque as a parameter `validURL : String → Bool`.
* The puppeteer collaborator is opaque: each awaited browser call is a
  `BrowserOp`; an environment `Env` decides which calls succeed and what bytes
  a capture returns.  Because every branch condition in the handler depends
  only on the validated request (never on a result of a browser call), the
  handler's sequence of browser calls is a pure function `plannedOps` of the
  validated request, and execution (`runOps`) performs the ops in order until
  the first failure; a failing op throws, which lands in the handler's single
  `catch` block.
* `Buffer.toString("base64")` is modelled by `base64Encode` (RFC 4648 with
  padding) over the captured bytes.
-/

namespace SiteShot

/-- JSON values, as produced by `await req.json()`. -/
inductive Json where
  | null : Json
  | bool : Bool → Json
  | num : Rat → Json
  | str : String → Json
  | arr : List Json → Json
  | obj : List (String × Json) → Json

/-- `format: z.enum(["png", "jpeg", "pdf"])`. -/
inductive Format where
  | png : Format
  | jpeg : Format
  | pdf : Format
deriving DecidableEq

/-- The validated request produced by `screenshotSchema.parse`. -/
structure ScreenshotRequest where
  url : String
  fullSize : Bool
  useProxy : Bool
  noAds : Bool
  width : Rat
  height : Rat
  zoom : Rat
  format : Format
  quality : Rat
  delay : Rat
  css : Option String
deriving DecidableEq

/-- A zod validation failure (`schema.parse` throws a `ZodError`); the handler
never inspects the error detail, so one constructor suffices. -/
inductive ZodError where
  | invalid : ZodError
deriving DecidableEq

/-- Field lookup on a JSON object: a missing key is JavaScript `undefined`
(`none`), which zod treats differently from JSON `null`. -/
def getField (j : Json) (k : String) : Option Json :=
  match j with
  | Json.obj fields => (fields.find? (fun p => p.1 == k)).map (fun p => p.2)
  | _ => none

/-- `z.string().url()`: the value must be a string passing the (opaque) URL
syntax validator. -/
def parseUrl (validURL : String → Bool) : Option Json → Except ZodError String
  | some (Json.str s) => if validURL s then Except.ok s else Except.error ZodError.invalid
  | _ => Except.error ZodError.invalid

/-- `z.boolean().default(d)`: a missing field yields the default, a present
field must be a boolean. -/
def parseBoolDefault (d : Bool) : Option Json → Except ZodError Bool
  | none => Except.ok d
  | some (Json.bool b) => Except.ok b
  | some _ => Except.error ZodError.invalid

/-- `z.number().min(lo).max(hi)`: the field must be present, a number, and
within the inclusive range.  Note: no `.int()` check. -/
def parseNumRange (lo hi : Rat) : Option Json → Except ZodError Rat
  | some (Json.num q) =>
      if lo ≤ q then
        if q ≤ hi then Except.ok q else Except.error ZodError.invalid
      else Except.error ZodError.invalid
  | _ => Except.error ZodError.invalid

/-- `z.number().min(lo).max(hi).default(d)`: a missing field yields the
default, otherwise as `parseNumRange`. -/
def parseNumRangeDefault (lo hi d : Rat) : Option Json → Except ZodError Rat
  | none => Except.ok d
  | some j => parseNumRange lo hi (some j)

/-- `z.enum(["png", "jpeg", "pdf"]).default("png")`. -/
def parseFormat : Option Json → Except ZodError Format
  | none => Except.ok Format.png
  | some (Json.str "png") => Except.ok Format.png
  | some (Json.str "jpeg") => Except.ok Format.jpeg
  | some (Json.str "pdf") => Except.ok Format.pdf
  | some _ => Except.error ZodError.invalid

/-- `z.string().optional()`: missing is allowed (`none`); a present field must
be a string (JSON `null` is rejected). -/
def parseOptString : Option Json → Except ZodError (Option String)
  | none => Except.ok none
  | some (Json.str s) => Except.ok (some s)
  | some _ => Except.error ZodError.invalid

/-- `screenshotSchema.parse`, field by field from the zod object schema at the
top of `route.ts`.  zod object schemas require an object input and strip
unknown keys. -/
def screenshotSchemaParse (validURL : String → Bool) (j : Json) :
    Except ZodError ScreenshotRequest :=
  match j with
  | Json.obj _ => do
    let url ← parseUrl validURL (getField j "url")
    let fullSize ← parseBoolDefault false (getField j "fullSize")
    let useProxy ← parseBoolDefault false (getField j "useProxy")
    let noAds ← parseBoolDefault false (getField j "noAds")
    let width ← parseNumRange 100 3840 (getField j "width")
    let height ← parseNumRange 100 2160 (getField j "height")
    let zoom ← parseNumRange 10 200 (getField j "zoom")
    let format ← parseFormat (getField j "format")
    let quality ← parseNumRangeDefault 0 100 80 (getField j "quality")
    let delay ← parseNumRangeDefault 0 10000 0 (getField j "delay")
    let css ← parseOptString (getField j "css")
    Except.ok { url := url, fullSize := fullSize, useProxy := useProxy,
                noAds := noAds, width := width, height := height, zoom := zoom,
                format := format, quality := quality, delay := delay, css := css }
  | _ => Except.error ZodError.invalid

/-- `String.prototype.includes`: substring containment. -/
def jsIncludes (s sub : String) : Bool :=
  decide (sub.toList <:+: s.toList)

/-- JavaScript truthiness of `validated.css : string | undefined`: truthy iff
present and non-empty (`if (validated.css)`). -/
def jsTruthyStr : Option String → Bool
  | none => false
  | some s => s ≠ ""

/-- The decision the `page.on("request", ...)` callback takes for one
intercepted request: `request.abort()` or `request.continue()`. -/
inductive InterceptDecision where
  | abort : InterceptDecision
  | cont : InterceptDecision
deriving DecidableEq

/-- The interception callback installed when `noAds` is set: abort if the
resource type is image/media/script or the URL contains "ads" or "analytics",
otherwise continue. -/
def interceptDecision (resourceType url : String) : InterceptDecision :=
  if resourceType == "image" || resourceType == "media" || resourceType == "script"
      || jsIncludes url "ads" || jsIncludes url "analytics" then
    InterceptDecision.abort
  else
    InterceptDecision.cont

/-- One awaited call into the puppeteer collaborator, with the arguments the
handler passes. -/
inductive BrowserOp where
  | launch : BrowserOp
  | newPage : BrowserOp
  | setViewport : Rat → Rat → Rat → BrowserOp
  | setRequestInterception : Bool → BrowserOp
  | onRequest : BrowserOp
  | goto : String → String → BrowserOp
  | evaluateCss : String → BrowserOp
  | waitDelay : Rat → BrowserOp
  | pdfCapture : String → Bool → BrowserOp
  | screenshotCapture : Bool → Format → Option Rat → BrowserOp
  | close : BrowserOp
deriving DecidableEq

/-- The opaque puppeteer collaborator: which awaited calls succeed, and the
bytes the capture call returns. -/
structure Env where
  ok : BrowserOp → Bool
  capturedBytes : List Nat

/-- The exact sequence of awaited browser calls the `POST` handler makes for a
validated request, in source order.  Every branch condition in the handler
depends only on `validated`, so this list is a pure function of it:
* `puppeteer.launch`, `browser.newPage`;
* `page.setViewport` with the requested width/height and
  `deviceScaleFactor: validated.zoom / 100`;
* if `validated.noAds`: `page.setRequestInterception(true)` and installing the
  `page.on("request", ...)` callback;
* `page.goto(validated.url, { waitUntil: "networkidle0" })`;
* if `validated.css` is truthy: `page.evaluate` appending a style element;
* if `validated.delay > 0`: the `setTimeout` wait;
* `page.pdf({ format: "A4", printBackground: true })` when format is pdf,
  else `page.screenshot({ fullPage, type, quality })` where quality is
  `validated.quality` for jpeg and `undefined` otherwise;
* `browser.close()`. -/
def plannedOps (validated : ScreenshotRequest) : List BrowserOp :=
  [BrowserOp.launch, BrowserOp.newPage,
   BrowserOp.setViewport validated.width validated.height (validated.zoom / 100)]
  ++ (if validated.noAds then
        [BrowserOp.setRequestInterception true, BrowserOp.onRequest]
      else [])
  ++ [BrowserOp.goto validated.url "networkidle0"]
  ++ (if jsTruthyStr validated.css then
        [BrowserOp.evaluateCss (validated.css.getD "")]
      else [])
  ++ (if 0 < validated.delay then [BrowserOp.waitDelay validated.delay] else [])
  ++ [if validated.format = Format.pdf then
        BrowserOp.pdfCapture "A4" true
      else
        BrowserOp.screenshotCapture validated.fullSize validated.format
          (if validated.format = Format.jpeg then some validated.quality else none)]
  ++ [BrowserOp.close]

/-- Execute the awaited calls in order.  A failing call throws, so nothing
after it runs: the result records whether all calls succeeded and the calls
actually attempted (the thrown call included). -/
def runOps (env : Env) : List BrowserOp → Bool × List BrowserOp
  | [] => (true, [])
  | op :: rest =>
      if env.ok op then
        let r := runOps env rest
        (r.1, op :: r.2)
      else
        (false, [op])

/-- The JSON body + HTTP status of a `NextResponse.json` the handler returns. -/
structure Response where
  status : Nat
  success : Bool
  screenshot : Option String
  error : Option String
deriving DecidableEq

/-- The handler's single catch-all failure response:
`NextResponse.json({ success: false, error: "Failed to capture screenshot" }, { status: 500 })`. -/
def errorResponse : Response :=
  { status := 500, success := false, screenshot := none,
    error := some "Failed to capture screenshot" }

/-- The MIME part of the returned data URI:
`validated.format === "pdf" ? "application/pdf" : image/format`. -/
def mimeType (f : Format) : String :=
  if f = Format.pdf then "application/pdf"
  else "image/" ++ (match f with
    | Format.png => "png"
    | Format.jpeg => "jpeg"
    | Format.pdf => "pdf")

/-- RFC 4648 base64 alphabet, for `Buffer.toString("base64")`. -/
def base64Alphabet : List Char :=
  "ABCDEFGHIJKLMNOPQRSTUVWXYZabcdefghijklmnopqrstuvwxyz0123456789+/".toList

/-- The base64 digit for a 6-bit group. -/
def base64Digit (n : Nat) : Char :=
  base64Alphabet.getD n '='

/-- `Buffer.toString("base64")`: standard base64 with `=` padding over bytes. -/
def base64Encode : List Nat → String
  | [] => ""
  | [b0] =>
      String.mk [base64Digit (b0 / 4), base64Digit (b0 % 4 * 16), '=', '=']
  | [b0, b1] =>
      String.mk [base64Digit (b0 / 4), base64Digit (b0 % 4 * 16 + b1 / 16),
                 base64Digit (b1 % 16 * 4), '=']
  | b0 :: b1 :: b2 :: rest =>
      String.mk [base64Digit (b0 / 4), base64Digit (b0 % 4 * 16 + b1 / 16),
                 base64Digit (b1 % 16 * 4 + b2 / 64), base64Digit (b2 % 64)]
      ++ base64Encode rest

/-- The `POST` handler.  `rawBody = none` models `await req.json()` throwing
(invalid JSON).  The whole body runs inside one `try`; any throw (validation,
JSON, or a browser call) reaches the single `catch`, which logs and returns
the generic 500 response — note the `catch` does NOT call `browser.close()`.
Alongside the response we return the trace of attempted browser calls. -/
def POST (validURL : String → Bool) (env : Env) (rawBody : Option Json) :
    Response × List BrowserOp :=
  match rawBody with
  | none => (errorResponse, [])
  | some data =>
    match screenshotSchemaParse validURL data with
    | Except.error _ => (errorResponse, [])
    | Except.ok validated =>
      match runOps env (plannedOps validated) with
      | (false, tr) => (errorResponse, tr)
      | (true, tr) =>
          let base64Screenshot := base64Encode env.capturedBytes
          ({ status := 200, success := true,
             screenshot := some ("data:" ++ mimeType validated.format
               ++ ";base64," ++ base64Screenshot),
             error := none }, tr)

/-! Concrete instances used to witness the theorems below. -/

/-- A URL validator accepting everything (zod's validator kept opaque). -/
def trueURL : String → Bool := fun _ => true

/-- A collaborator on which every browser call succeeds and the capture
returns the bytes of "Man" (base64 "TWFu"). -/
def allOkEnv : Env := { ok := fun _ => true, capturedBytes := [77, 97, 110] }

/-- A collaborator on which `page.goto` throws (e.g. a navigation timeout)
and every other call succeeds. -/
def envGotoFails : Env :=
  { ok := fun op => match op with
      | BrowserOp.goto _ _ => false
      | _ => true,
    capturedBytes := [77, 97, 110] }

/-- The validated form of `bodyExample`. -/
def vExample : ScreenshotRequest :=
  { url := "https://example.com", fullSize := false, useProxy := false,
    noAds := false, width := 1280, height := 720, zoom := 100,
    format := Format.png, quality := 80, delay := 0, css := none }

/-- A well-formed request body; omitted fields take their schema defaults. -/
def bodyExample : Json :=
  Json.obj [("url", Json.str "https://example.com"),
            ("width", Json.num 1280), ("height", Json.num 720),
            ("zoom", Json.num 100)]

/-- A body whose width 50 is below the allowed minimum 100. -/
def bodyBadWidth : Json :=
  Json.obj [("url", Json.str "https://example.com"),
            ("width", Json.num 50), ("height", Json.num 720),
            ("zoom", Json.num 100)]

/-- `bodyExample` with `useProxy: true`. -/
def bodyProxyTrue : Json :=
  Json.obj [("url", Json.str "https://example.com"),
            ("useProxy", Json.bool true),
            ("width", Json.num 1280), ("height", Json.num 720),
            ("zoom", Json.num 100)]

/-- `bodyExample` with `useProxy: false`. -/
def bodyProxyFalse : Json :=
  Json.obj [("url", Json.str "https://example.com"),
            ("useProxy", Json.bool false),
            ("width", Json.num 1280), ("height", Json.num 720),
            ("zoom", Json.num 100)]

/-- `vExample` with pdf output. -/
def vPdf : ScreenshotRequest := { vExample with format := Format.pdf }

/-- `vExample` with jpeg output. -/
def vJpeg : ScreenshotRequest := { vExample with format := Format.jpeg }

/-- `vExample` with an empty css string. -/
def vCssEmpty : ScreenshotRequest := { vExample with css := some "" }

/-- The rational 150.5 = 301/2, written in canonical form so that kernel
evaluation does not have to normalise a division. -/
def ratHalf301 : Rat := ⟨301, 2, by decide, by decide⟩

/-- A body whose width is the non-integer 150.5 (inside the 100..3840 range). -/
def bodyFractionalWidth : Json :=
  Json.obj [("url", Json.str "https://example.com"),
            ("width", Json.num ratHalf301), ("height", Json.num 720),
            ("zoom", Json.num 100)]

/-- A body carrying arbitrary numbers in all five range-checked fields. -/
def numBody (w h z q d : Rat) : Json :=
  Json.obj [("url", Json.str "https://example.com"),
            ("width", Json.num w), ("height", Json.num h), ("zoom", Json.num z),
            ("quality", Json.num q), ("delay", Json.num d)]

/-! General lemmas about the execution model. -/

/-- A run in which every call succeeded attempted exactly the planned calls. -/
theorem runOps_ok_eq (env : Env) :
    ∀ l tr, runOps env l = (true, tr) → tr = l := by
  intro l
  induction l with
  | nil => intro tr h; simp [runOps] at h; exact h ▸ rfl
  | cons op rest ih =>
      intro tr h
      by_cases hok : env.ok op = true
      · simp [runOps, hok] at h
        obtain ⟨h1, h2⟩ := h
        have heq : runOps env rest = (true, (runOps env rest).2) := by
          rw [Prod.ext_iff]; exact ⟨h1, rfl⟩
        rw [← h2, ih (runOps env rest).2 heq]
      · simp [runOps, hok] at h

/-- `POST` on a body that is not valid JSON. -/
theorem POST_none (validURL : String → Bool) (env : Env) :
    POST validURL env none = (errorResponse, []) := rfl

/-- `POST` when `screenshotSchema.parse` throws. -/
theorem POST_some_error (validURL : String → Bool) (env : Env) (data : Json)
    (e : ZodError) (h : screenshotSchemaParse validURL data = Except.error e) :
    POST validURL env (some data) = (errorResponse, []) := by
  simp only [POST]; rw [h]

/-- `POST` when validation succeeds: the response is determined by the run of
the planned browser calls. -/
theorem POST_some_ok (validURL : String → Bool) (env : Env) (data : Json)
    (v : ScreenshotRequest) (h : screenshotSchemaParse validURL data = Except.ok v) :
    POST validURL env (some data) =
      match runOps env (plannedOps v) with
      | (false, tr) => (errorResponse, tr)
      | (true, tr) =>
          ({ status := 200, success := true,
             screenshot := some ("data:" ++ mimeType v.format ++ ";base64,"
               ++ base64Encode env.capturedBytes),
             error := none }, tr) := by
  simp only [POST]; rw [h]

/-! The claims. -/

/-- C1: the claim says the browser session is released on every exit path.
The code violates it: on `envGotoFails` (navigation throws) the handler
launches a browser, returns the generic failure response, and never attempts
`browser.close()` — the `catch` block has no release — while on the all-ok run
`close` is attempted exactly once.  The launched browser leaks. -/
theorem c1_browser_not_closed_on_failure :
    (POST trueURL envGotoFails (some bodyExample)).1 = errorResponse ∧
    BrowserOp.launch ∈ (POST trueURL envGotoFails (some bodyExample)).2 ∧
    BrowserOp.close ∉ (POST trueURL envGotoFails (some bodyExample)).2 ∧
    (POST trueURL allOkEnv (some bodyExample)).2.count BrowserOp.close = 1 :=
  ⟨by decide, by decide, by decide, by decide⟩

/-- C2: whenever `screenshotSchema.parse` fails, the handler returns the
generic failure response with an empty browser-call trace: no browser session
is acquired, in particular the launch step is never reached. -/
theorem c2_validation_failure_no_browser (validURL : String → Bool) (env : Env)
    (data : Json) (e : ZodError)
    (h : screenshotSchemaParse validURL data = Except.error e) :
    POST validURL env (some data) = (errorResponse, []) ∧
    BrowserOp.launch ∉ (POST validURL env (some data)).2 := by
  have hp := POST_some_error validURL env data e h
  exact ⟨hp, by rw [hp]; simp⟩

/-- C2 witness: a width of 50 is rejected and no browser call happens. -/
theorem c2_witness :
    POST trueURL allOkEnv (some bodyBadWidth) = (errorResponse, []) ∧
    BrowserOp.launch ∉ (POST trueURL allOkEnv (some bodyBadWidth)).2 :=
  c2_validation_failure_no_browser trueURL allOkEnv bodyBadWidth
    ZodError.invalid rfl

/-- C3: on every successful request the returned screenshot string is the
fixed data-URI prefix for the requested format — exactly
"data:application/pdf;base64," for pdf, "data:image/png;base64," for png,
"data:image/jpeg;base64," for jpeg — followed by the base64 encoding of the
captured bytes. -/
theorem c3_data_uri_prefix (validURL : String → Bool) (env : Env) (data : Json)
    (v : ScreenshotRequest)
    (hparse : screenshotSchemaParse validURL data = Except.ok v)
    (hsucc : (POST validURL env (some data)).1.success = true) :
    (POST validURL env (some data)).1.screenshot =
      some ((match v.format with
             | Format.pdf => "data:application/pdf;base64,"
             | Format.png => "data:image/png;base64,"
             | Format.jpeg => "data:image/jpeg;base64,")
            ++ base64Encode env.capturedBytes) := by
  rw [POST_some_ok validURL env data v hparse] at hsucc ⊢
  cases hr : runOps env (plannedOps v) with
  | mk b tr =>
      rw [hr] at hsucc
      cases b
      · simp [errorResponse] at hsucc
      · cases v.format <;> rfl

/-- C3 witness: the example request yields the png prefix. -/
theorem c3_witness :
    (POST trueURL allOkEnv (some bodyExample)).1.screenshot =
      some ("data:image/png;base64," ++ base64Encode allOkEnv.capturedBytes) :=
  c3_data_uri_prefix trueURL allOkEnv bodyExample vExample rfl (by decide)

/-- C4: the interception callback aborts a request exactly when the resource
type is "image", "media" or "script", or the URL contains "ads" or
"analytics"; in every other case it continues the request. -/
theorem c4_intercept_decision (resourceType url : String) :
    (interceptDecision resourceType url = InterceptDecision.abort ↔
      (resourceType = "image" ∨ resourceType = "media" ∨ resourceType = "script" ∨
       jsIncludes url "ads" = true ∨ jsIncludes url "analytics" = true)) ∧
    (¬ (resourceType = "image" ∨ resourceType = "media" ∨ resourceType = "script" ∨
        jsIncludes url "ads" = true ∨ jsIncludes url "analytics" = true) →
      interceptDecision resourceType url = InterceptDecision.cont) := by
  have hb : (resourceType == "image" || resourceType == "media" || resourceType == "script"
      || jsIncludes url "ads" || jsIncludes url "analytics") = true ↔
      (resourceType = "image" ∨ resourceType = "media" ∨ resourceType = "script" ∨
       jsIncludes url "ads" = true ∨ jsIncludes url "analytics" = true) := by
    simp [Bool.or_eq_true, beq_iff_eq, or_assoc]
  unfold interceptDecision
  by_cases h : (resourceType == "image" || resourceType == "media" || resourceType == "script"
      || jsIncludes url "ads" || jsIncludes url "analytics") = true
  · rw [if_pos h]
    exact ⟨⟨fun _ => hb.mp h, fun _ => rfl⟩, fun hd => absurd (hb.mp h) hd⟩
  · rw [if_neg h]
    constructor
    · constructor
      · intro hc; exact absurd hc (by simp)
      · intro hd; exact absurd (hb.mpr hd) h
    · intro _; rfl

/-- C4 witness: an image request is aborted, a document request continues. -/
theorem c4_witness :
    interceptDecision "image" "https://example.com/pic" = InterceptDecision.abort ∧
    interceptDecision "document" "https://example.com/page" = InterceptDecision.cont :=
  ⟨(c4_intercept_decision "image" "https://example.com/pic").1.mpr (Or.inl rfl),
   (c4_intercept_decision "document" "https://example.com/page").2 (by decide)⟩

/-- C5: every failing request — invalid JSON, validation failure, or a failing
browser call — produces exactly the body
`{ success: false, error: "Failed to capture screenshot" }` with status 500,
so the response does not reveal which kind of failure occurred. -/
theorem c5_uniform_error_response (validURL : String → Bool) (env : Env)
    (rawBody : Option Json)
    (h : (POST validURL env rawBody).1.success = false) :
    (POST validURL env rawBody).1 =
      { status := 500, success := false, screenshot := none,
        error := some "Failed to capture screenshot" } := by
  cases rawBody with
  | none => rfl
  | some data =>
      cases hp : screenshotSchemaParse validURL data with
      | error e => rw [POST_some_error validURL env data e hp]; rfl
      | ok v =>
          rw [POST_some_ok validURL env data v hp] at h ⊢
          cases hr : runOps env (plannedOps v) with
          | mk b tr =>
              rw [hr] at h
              cases b
              · rfl
              · simp at h

/-- C5 witness: a failing navigation yields the fixed 500 response. -/
theorem c5_witness :
    (POST trueURL envGotoFails (some bodyExample)).1 =
      { status := 500, success := false, screenshot := none,
        error := some "Failed to capture screenshot" } :=
  c5_uniform_error_response trueURL envGotoFails (some bodyExample) (by decide)

/-- `ratHalf301` is the decimal 150.5. -/
theorem ratHalf301_eq : ratHalf301 = (150.5 : Rat) := by
  have hnum : ratHalf301.num = 301 := rfl
  have hden : ratHalf301.den = 2 := rfl
  have hdiv := Rat.num_div_den ratHalf301
  rw [hnum, hden] at hdiv
  rw [← hdiv]; norm_num

/-- `ratHalf301` is not an integer. -/
theorem ratHalf301_not_int : ¬ ∃ n : ℤ, ratHalf301 = (n : Rat) := by
  rintro ⟨n, hn⟩
  have hd : ratHalf301.den = 1 := by rw [hn]; exact Rat.den_intCast n
  exact absurd hd (by decide)

/-- C6 counterexample: the schema uses `z.number().min(..).max(..)` with no
`.int()` check, so the non-integer width 150.5 passes validation and the
request succeeds, contradicting the claim that non-integer numeric values are
rejected. -/
theorem c6_counterexample :
    screenshotSchemaParse trueURL bodyFractionalWidth =
      Except.ok { vExample with width := ratHalf301 } ∧
    (POST trueURL allOkEnv (some bodyFractionalWidth)).1.success = true ∧
    ratHalf301 = (150.5 : Rat) ∧
    (¬ ∃ n : ℤ, ratHalf301 = (n : Rat)) :=
  ⟨rfl, by decide, ratHalf301_eq, ratHalf301_not_int⟩

/-- C6 amended: the numeric fields width, height, zoom, quality and delay are
validated only against their min/max bounds; any number inside the range —
integer or not — is accepted unchanged. -/
theorem c6_amended_range_only (validURL : String → Bool)
    (hurl : validURL "https://example.com" = true)
    (w h z q d : Rat)
    (hw1 : 100 ≤ w) (hw2 : w ≤ 3840) (hh1 : 100 ≤ h) (hh2 : h ≤ 2160)
    (hz1 : 10 ≤ z) (hz2 : z ≤ 200) (hq1 : 0 ≤ q) (hq2 : q ≤ 100)
    (hd1 : 0 ≤ d) (hd2 : d ≤ 10000) :
    screenshotSchemaParse validURL (numBody w h z q d) =
      Except.ok { url := "https://example.com", fullSize := false,
                  useProxy := false, noAds := false, width := w, height := h,
                  zoom := z, format := Format.png, quality := q, delay := d,
                  css := none } := by
  have e1 : parseUrl validURL (getField (numBody w h z q d) "url") =
      Except.ok "https://example.com" := by
    show parseUrl validURL (some (Json.str "https://example.com")) = _
    simp [parseUrl, hurl]
  have e2 : parseNumRange 100 3840 (getField (numBody w h z q d) "width") =
      Except.ok w := by
    show parseNumRange 100 3840 (some (Json.num w)) = _
    simp [parseNumRange, hw1, hw2]
  have e3 : parseNumRange 100 2160 (getField (numBody w h z q d) "height") =
      Except.ok h := by
    show parseNumRange 100 2160 (some (Json.num h)) = _
    simp [parseNumRange, hh1, hh2]
  have e4 : parseNumRange 10 200 (getField (numBody w h z q d) "zoom") =
      Except.ok z := by
    show parseNumRange 10 200 (some (Json.num z)) = _
    simp [parseNumRange, hz1, hz2]
  have e5 : parseNumRangeDefault 0 100 80 (getField (numBody w h z q d) "quality") =
      Except.ok q := by
    show parseNumRangeDefault 0 100 80 (some (Json.num q)) = _
    simp [parseNumRangeDefault, parseNumRange, hq1, hq2]
  have e6 : parseNumRangeDefault 0 10000 0 (getField (numBody w h z q d) "delay") =
      Except.ok d := by
    show parseNumRangeDefault 0 10000 0 (some (Json.num d)) = _
    simp [parseNumRangeDefault, parseNumRange, hd1, hd2]
  simp only [numBody] at e1 e2 e3 e4 e5 e6
  simp only [numBody, screenshotSchemaParse]
  rw [e1, e2, e3, e4, e5, e6]
  rfl

/-- C6 witness: non-integer values inside the ranges are accepted. -/
theorem c6_witness :
    screenshotSchemaParse trueURL (numBody ratHalf301 720 100 80 0) =
      Except.ok { url := "https://example.com", fullSize := false,
                  useProxy := false, noAds := false, width := ratHalf301,
                  height := 720, zoom := 100, format := Format.png,
                  quality := 80, delay := 0, css := none } :=
  c6_amended_range_only trueURL rfl ratHalf301 720 100 80 0
    (by decide) (by decide) (by decide) (by decide) (by decide) (by decide)
    (by decide) (by decide) (by decide) (by decide)

/-- C7: the capture step is dispatched on the validated format: pdf renders a
PDF with A4 page size and backgrounds printed (and no image capture happens);
any other format captures an image with full-page capture exactly when
`fullSize` is set, passing the requested quality verbatim exactly for jpeg and
no quality for png (and no PDF capture happens). -/
theorem c7_capture_dispatch (v : ScreenshotRequest) :
    (v.format = Format.pdf →
       BrowserOp.pdfCapture "A4" true ∈ plannedOps v ∧
       ∀ fp t q, BrowserOp.screenshotCapture fp t q ∉ plannedOps v) ∧
    (v.format ≠ Format.pdf →
       BrowserOp.screenshotCapture v.fullSize v.format
         (if v.format = Format.jpeg then some v.quality else none) ∈ plannedOps v ∧
       ∀ a b, BrowserOp.pdfCapture a b ∉ plannedOps v) ∧
    (v.format = Format.jpeg →
       BrowserOp.screenshotCapture v.fullSize Format.jpeg (some v.quality) ∈ plannedOps v) ∧
    (v.format = Format.png →
       BrowserOp.screenshotCapture v.fullSize Format.png none ∈ plannedOps v) := by
  refine ⟨?_, ?_, ?_, ?_⟩ <;> intro hf
  · refine ⟨by simp [plannedOps, hf], ?_⟩
    intro fp t q hmem
    simp [plannedOps, hf] at hmem
  · refine ⟨by simp [plannedOps, hf], ?_⟩
    intro a b hmem
    simp [plannedOps, hf] at hmem
  · simp [plannedOps, hf]
  · simp [plannedOps, hf]

/-- C7 witness: the three formats dispatch to their capture calls. -/
theorem c7_witness :
    BrowserOp.pdfCapture "A4" true ∈ plannedOps vPdf ∧
    BrowserOp.screenshotCapture false Format.jpeg (some 80) ∈ plannedOps vJpeg ∧
    BrowserOp.screenshotCapture false Format.png none ∈ plannedOps vExample :=
  ⟨((c7_capture_dispatch vPdf).1 rfl).1,
   (c7_capture_dispatch vJpeg).2.2.1 rfl,
   (c7_capture_dispatch vExample).2.2.2 rfl⟩

/-- C8: the handler plans exactly one `setViewport` call, and it carries the
requested width and height and a device scale factor of zoom / 100. -/
theorem c8_viewport (v : ScreenshotRequest) :
    BrowserOp.setViewport v.width v.height (v.zoom / 100) ∈ plannedOps v ∧
    ∀ w h d, BrowserOp.setViewport w h d ∈ plannedOps v →
      w = v.width ∧ h = v.height ∧ d = v.zoom / 100 := by
  constructor
  · simp [plannedOps]
  · intro w h d hmem
    simp [plannedOps] at hmem
    split_ifs at hmem <;> simp at hmem <;> tauto

/-- C8 witness: the example request's viewport is 1280 by 720 at scale 1. -/
theorem c8_witness :
    BrowserOp.setViewport vExample.width vExample.height (vExample.zoom / 100) ∈
      plannedOps vExample ∧
    ((1280 : Rat) = vExample.width ∧ (720 : Rat) = vExample.height ∧
     (1 : Rat) = vExample.zoom / 100) :=
  ⟨(c8_viewport vExample).1,
   (c8_viewport vExample).2 1280 720 1
     (by simp [plannedOps, vExample])⟩

/-- C9: `useProxy` is accepted but inert — two validated requests that agree
on everything except `useProxy` produce identical browser-call sequences and
identical responses. -/
theorem c9_useProxy_inert (validURL : String → Bool) (env : Env)
    (j1 j2 : Json) (v1 v2 : ScreenshotRequest)
    (h1 : screenshotSchemaParse validURL j1 = Except.ok v1)
    (h2 : screenshotSchemaParse validURL j2 = Except.ok v2)
    (hsame : v1 = { v2 with useProxy := v1.useProxy }) :
    POST validURL env (some j1) = POST validURL env (some j2) := by
  rw [POST_some_ok validURL env j1 v1 h1, POST_some_ok validURL env j2 v2 h2,
    hsame]
  cases v2
  rfl

/-- C9 witness: flipping `useProxy` does not change the outcome. -/
theorem c9_witness :
    POST trueURL allOkEnv (some bodyProxyTrue) =
      POST trueURL allOkEnv (some bodyProxyFalse) :=
  c9_useProxy_inert trueURL allOkEnv bodyProxyTrue bodyProxyFalse
    { vExample with useProxy := true } vExample rfl rfl rfl

/-- C10: the guard `if (validated.css)` tests string truthiness, so an empty
css string plans the same browser calls as an absent css field, no style
injection happens for it, and an injection call occurs only for a present,
non-empty css value. -/
theorem c10_empty_css_no_injection (v : ScreenshotRequest) (h : v.css = some "") :
    plannedOps v = plannedOps { v with css := none } ∧
    (∀ s, BrowserOp.evaluateCss s ∉ plannedOps v) ∧
    (∀ w : ScreenshotRequest, ∀ s, BrowserOp.evaluateCss s ∈ plannedOps w →
       w.css = some s ∧ s ≠ "") := by
  refine ⟨?_, ?_, ?_⟩
  · cases v
    simp at h
    subst h
    simp [plannedOps, jsTruthyStr]
  · intro s
    simp [plannedOps, jsTruthyStr, h]
    split_ifs <;> simp
  · intro w s hmem
    cases hc : w.css with
    | none =>
        simp [plannedOps, jsTruthyStr, hc] at hmem
        split at hmem <;> simp at hmem
    | some c =>
        by_cases hce : c = ""
        · subst hce
          simp [plannedOps, jsTruthyStr, hc] at hmem
          split at hmem <;> simp at hmem
        · simp [plannedOps, jsTruthyStr, hc, hce] at hmem
          rcases hmem with rfl | hmem
          · exact ⟨rfl, hce⟩
          · split at hmem <;> simp at hmem

/-- C10 witness: with css an empty string nothing is injected. -/
theorem c10_witness :
    plannedOps vCssEmpty = plannedOps { vCssEmpty with css := none } ∧
    BrowserOp.evaluateCss "body" ∉ plannedOps vCssEmpty :=
  ⟨(c10_empty_css_no_injection vCssEmpty rfl).1,
   (c10_empty_css_no_injection vCssEmpty rfl).2.1 "body"⟩

end SiteShot
